import Mathlib

/-!
Verification development for the eyetracked-chromatic-filtering repository.

The development shallowly embeds the parts of the code that the checked
properties speak about:

* the separable GPU Gaussian blur engine (`render_blur.py`,
  class `GaussianBlurRenderer`),
* the render-loop controller (`no-eyetracking-render-loop.py`, function `main`),
* the DXcam capture wrapper (`dxgi_capture.py`),
* the settings loader (`utility/load_settings.py`).

Pixel values are 8-bit unsigned integers (`Fin 256`); shader arithmetic is
idealized as real arithmetic.  The convolution shader `shader/blur.glsl` is
referenced by the code (it is the `shader_path` asset compiled by
`_compile_blur_program`) but its text is not part of the source tree, so the
per-channel convolution it performs is modelled from the specification, as
marked on the individual definitions.
-/

namespace ECF

/-! ## Texture parameters and edge addressing (from `_create_rgb8_texture`) -/

/-- Texture filter modes that appear in `_create_rgb8_texture`. -/
inductive FilterMode where
  | nearest
  | linear
deriving DecidableEq

/-- Texture wrap (edge addressing) modes relevant to the blur textures:
`GL_CLAMP_TO_EDGE`, `GL_REPEAT`, `GL_MIRRORED_REPEAT`. -/
inductive WrapMode where
  | clampToEdge
  | repeatWrap
  | mirroredRepeat
deriving DecidableEq

/-- Parameters set on a texture by `_create_rgb8_texture`
(`render_blur.py`, lines 58-80). -/
structure TexParams where
  minFilter : FilterMode
  magFilter : FilterMode
  wrapS : WrapMode
  wrapT : WrapMode
deriving DecidableEq

/-- Embedding of `_create_rgb8_texture`: `GL_NEAREST` min/mag filters and
`GL_CLAMP_TO_EDGE` wrapping on both axes. -/
def createRgb8TextureParams : TexParams :=
  { minFilter := .nearest
    magFilter := .nearest
    wrapS := .clampToEdge
    wrapT := .clampToEdge }

/-- The three fixed-size textures owned by `GaussianBlurRenderer`
(`self.tex_in`, `self.tex_temp`, `self.tex_out`, created in `__init__`,
`render_blur.py` lines 142-144, each via `_create_rgb8_texture`). -/
structure BlurSurfaceSet where
  texIn : TexParams
  texTemp : TexParams
  texOut : TexParams
deriving DecidableEq

/-- The GPU surface set as built by `GaussianBlurRenderer.__init__`:
all three textures share the `_create_rgb8_texture` parameter set. -/
def gaussianBlurSurfaces : BlurSurfaceSet :=
  { texIn := createRgb8TextureParams
    texTemp := createRgb8TextureParams
    texOut := createRgb8TextureParams }

/-- Clamp-to-edge index addressing: an integer sample coordinate is clamped
into `[0, n-1]` for a texture axis of size `n`. -/
def clampIdx (n : ℕ) (i : ℤ) : ℕ :=
  (min (max i 0) ((n : ℤ) - 1)).toNat

/-- Repeat (wrap-around) index addressing, `GL_REPEAT` texel behaviour. -/
def repeatIdx (n : ℕ) (i : ℤ) : ℕ :=
  (i % (n : ℤ)).toNat

/-- Mirrored-repeat index addressing, `GL_MIRRORED_REPEAT` texel behaviour. -/
def mirrorIdx (n : ℕ) (i : ℤ) : ℕ :=
  let p := (i % (2 * (n : ℤ))).toNat
  if p < n then p else 2 * n - 1 - p

/-- Texel lookup index produced by each wrap mode for nearest-neighbour
sampling at integer texel offset `i` on an axis of `n` texels.  Modelled
from the OpenGL semantics of the three wrap modes. -/
def wrapSample (m : WrapMode) (n : ℕ) (i : ℤ) : ℕ :=
  match m with
  | .clampToEdge => clampIdx n i
  | .repeatWrap => repeatIdx n i
  | .mirroredRepeat => mirrorIdx n i

/-! ## The separable Gaussian blur model (C2, C3)

`GaussianBlurRenderer.process` uploads an 8-bit frame into `tex_in`, runs the
fragment program compiled from `shader/blur.glsl` with
`BLUR_DIR vec2(1.0,0.0)` into `tex_temp`, runs the same program with
`BLUR_DIR vec2(0.0,1.0)` into `tex_out`, and returns `tex_out`
(`render_blur.py` lines 247-298).  The textures are `GL_RGB8`, so the
intermediate and final pass results are quantized to 8 bits per channel. -/

/-- An 8-bit three-channel image: column, row, channel to byte value. -/
abbrev Img := ℕ → ℕ → Fin 3 → Fin 256

/-- A real-valued three-channel image (shader arithmetic idealized over ℝ). -/
abbrev RealImg := ℕ → ℕ → Fin 3 → ℝ

/-- Normalized real value of one 8-bit channel sample, as sampled by the
shader from a `GL_RGB8` texture. -/
noncomputable def toRealVal (k : Fin 256) : ℝ := (k : ℝ) / 255

/-- Real-valued view of an 8-bit image. -/
noncomputable def toRealImg (img : Img) : RealImg :=
  fun x y c => toRealVal (img x y c)

/-- Modelled from the spec: unnormalized 1-D Gaussian tap weight
`exp(-i^2 / (2 sigma^2))` used by the convolution shader
(`shader/blur.glsl` is not in the source tree); spec section 4.4(b). -/
noncomputable def gaussWeight (σ : ℝ) (i : ℤ) : ℝ :=
  Real.exp (-(i : ℝ) ^ 2 / (2 * σ ^ 2))

/-- Tap index set of a pass truncated to radius `r`: `2*r+1` taps. -/
def taps (r : ℕ) : Finset ℤ := Finset.Icc (-(r : ℤ)) r

/-- Modelled from the spec: normalized 1-D Gaussian weight (weights of one
pass sum to 1 per channel); spec section 4.4(b). -/
noncomputable def normWeight (σ : ℝ) (r : ℕ) (i : ℤ) : ℝ :=
  gaussWeight σ i / ∑ j ∈ taps r, gaussWeight σ j

/-- Modelled from the spec: the horizontal 1-D convolution pass.  Per channel
`c` it applies the normalized Gaussian weights for `(radius c, sigma c)`
along the x axis, sampling out-of-range columns with clamp-to-edge
addressing; spec section 4.4(b). -/
noncomputable def hPass (w : ℕ) (radius : Fin 3 → ℕ) (sigma : Fin 3 → ℝ)
    (f : RealImg) : RealImg :=
  fun x y c =>
    ∑ i ∈ taps (radius c),
      normWeight (sigma c) (radius c) i * f (clampIdx w ((x : ℤ) + i)) y c

/-- Modelled from the spec: the vertical 1-D convolution pass, identical to
the horizontal pass but along the y axis; spec section 4.4(c). -/
noncomputable def vPass (hgt : ℕ) (radius : Fin 3 → ℕ) (sigma : Fin 3 → ℝ)
    (f : RealImg) : RealImg :=
  fun x y c =>
    ∑ j ∈ taps (radius c),
      normWeight (sigma c) (radius c) j * f x (clampIdx hgt ((y : ℤ) + j)) c

/-- Quantization of a normalized shader output value to one byte of a
`GL_RGB8` render target (round to nearest, clamped into `[0,255]`). -/
noncomputable def quantizeVal (v : ℝ) : Fin 256 :=
  ⟨min (round (255 * v)).toNat 255, by omega⟩

/-- Pixelwise quantization of a pass result into an 8-bit texture. -/
noncomputable def quantizeImg (f : RealImg) : Img :=
  fun x y c => quantizeVal (f x y c)

/-- Embedding of `GaussianBlurRenderer.process` on the pixel contents:
upload (exact, 8-bit), horizontal pass into the 8-bit `tex_temp`,
vertical pass into the 8-bit `tex_out`.  The convolution itself is
modelled from the spec (see `hPass`, `vPass`). -/
noncomputable def processModel (w hgt : ℕ) (radius : Fin 3 → ℕ)
    (sigma : Fin 3 → ℝ) (img : Img) : Img :=
  quantizeImg (vPass hgt radius sigma
    (toRealImg (quantizeImg (hPass w radius sigma (toRealImg img)))))

/-- Modelled from the spec: unnormalized 2-D Gaussian weight
`exp(-(i^2+j^2) / (2 sigma^2))`, the full 2-D kernel of spec section 4.4. -/
noncomputable def gaussWeight2 (σ : ℝ) (i j : ℤ) : ℝ :=
  Real.exp (-((i : ℝ) ^ 2 + (j : ℝ) ^ 2) / (2 * σ ^ 2))

/-- Modelled from the spec: direct evaluation of the full 2-D Gaussian
convolution with per-channel sigma, truncated to `(2r+1)^2` taps,
normalized to sum to 1, with clamp-to-edge addressing.  This is the
reference the two-pass result is compared against (spec section 4.4,
key numerical contract). -/
noncomputable def direct2D (w hgt : ℕ) (radius : Fin 3 → ℕ)
    (sigma : Fin 3 → ℝ) (f : RealImg) : RealImg :=
  fun x y c =>
    (∑ i ∈ taps (radius c), ∑ j ∈ taps (radius c),
        gaussWeight2 (sigma c) i j *
          f (clampIdx w ((x : ℤ) + i)) (clampIdx hgt ((y : ℤ) + j)) c) /
      (∑ i ∈ taps (radius c), ∑ j ∈ taps (radius c), gaussWeight2 (sigma c) i j)

/-! ## Frames, pixel formats and `upload_frame` (C1, C4) -/

/-- The four OpenGL pixel-format constants the pipeline negotiates between
(`GL_RGB`, `GL_BGR`, `GL_RGBA`, `GL_BGRA`; `no-eyetracking-render-loop.py`
lines 268-271). -/
inductive GLFormat where
  | rgb
  | bgr
  | rgba
  | bgra
deriving DecidableEq

/-- Embedding of a numpy array as the code observes it: its shape list,
whether its dtype is `uint8`, the C-contiguity flag, and the pixel data
(row, column, channel). -/
structure NpArray where
  shape : List ℕ
  dtypeU8 : Bool
  contiguous : Bool
  data : ℕ → ℕ → ℕ → Fin 256

/-- Embedding of `np.ascontiguousarray`: yields a contiguous copy with the
same element data; the argument itself is left untouched (the Python code
rebinds a local name to the copy). -/
def mkContiguous (f : NpArray) : NpArray :=
  { f with contiguous := true }

/-- Embedding of `GaussianBlurRenderer.upload_frame`
(`render_blur.py` lines 209-238): validation raises in source order
(`None` frame; dtype/ndim/channel-count; frame size vs the renderer's
fixed `w`/`h`; channel count vs `input_format`), a non-contiguous frame is
silently replaced by a contiguous copy, and on success the (copied) pixel
data is what `glTexSubImage2D` uploads. -/
def uploadFrame (rw rh : ℕ) (fmt : GLFormat) (frame : Option NpArray) :
    Except String NpArray :=
  match frame with
  | none => .error "FrameRGB is None"
  | some f =>
    if ¬(f.dtypeU8 = true) ∨ f.shape.length ≠ 3 ∨
        (f.shape.getD 2 0 ≠ 3 ∧ f.shape.getD 2 0 ≠ 4) then
      .error "Expected uint8 HxWx3/4"
    else if f.shape.getD 0 0 ≠ rh ∨ f.shape.getD 1 0 ≠ rw then
      .error "Frame size != renderer size"
    else if f.shape.getD 2 0 = 3 ∧ fmt ≠ .rgb ∧ fmt ≠ .bgr then
      .error "input_format must be GL_RGB or GL_BGR for 3-channel input"
    else if f.shape.getD 2 0 = 4 ∧ fmt ≠ .rgba ∧ fmt ≠ .bgra then
      .error "input_format must be GL_RGBA or GL_BGRA for 4-channel input"
    else
      .ok (if f.contiguous then f else mkContiguous f)

/-- Success observation on a fallible result: `true` exactly when no error
was raised. -/
def exceptOk {ε α : Type} (e : Except ε α) : Bool :=
  match e with
  | .ok _ => true
  | .error _ => false

/-- Success predicate of the `upload_frame` validation as the spec states it:
the frame matches the dimensions fixed at initialization and its
dtype/dimensionality/channel count match the negotiated pixel format. -/
def uploadAccepts (rw rh : ℕ) (fmt : GLFormat) (f : NpArray) : Prop :=
  f.dtypeU8 = true ∧ f.shape.length = 3 ∧
    f.shape.getD 0 0 = rh ∧ f.shape.getD 1 0 = rw ∧
    ((f.shape.getD 2 0 = 3 ∧ (fmt = .rgb ∨ fmt = .bgr)) ∨
      (f.shape.getD 2 0 = 4 ∧ (fmt = .rgba ∨ fmt = .bgra)))

instance (rw rh : ℕ) (fmt : GLFormat) (f : NpArray) :
    Decidable (uploadAccepts rw rh fmt f) := by
  unfold uploadAccepts; infer_instance

/-! ## Render-loop controller (C1, C8): first-frame negotiation and the
running-loop frame check, from `main` in `no-eyetracking-render-loop.py`. -/

/-- Pipeline states of the frame controller (spec section 3,
`PipelineState`). -/
inductive PipelineState where
  | uninitialized
  | awaitingFirstFrame
  | running
  | shuttingDown
deriving DecidableEq

/-- Embedding of the first-frame format negotiation
(`no-eyetracking-render-loop.py` lines 261-271): a first frame must have
`ndim == 3` and 3 or 4 channels, otherwise startup aborts; the
`input_format` is then fixed from the `capture_format` setting
(`isBgr` models `capture_format == "bgr"`) and the channel count. -/
def negotiate (isBgr : Bool) (first : NpArray) : Option GLFormat :=
  if first.shape.length ≠ 3 ∨
      (first.shape.getD 2 0 ≠ 3 ∧ first.shape.getD 2 0 ≠ 4) then
    none
  else if isBgr then
    some (if first.shape.getD 2 0 = 4 then .bgra else .bgr)
  else
    some (if first.shape.getD 2 0 = 4 then .rgba else .rgb)

/-- Outcome of one pass over the body of the running render loop for the
captured frame. -/
inductive IterStep where
  | sleepRetry
  | dropLogged
  | processed (f : NpArray)

/-- Embedding of the running-loop frame handling
(`no-eyetracking-render-loop.py` lines 305-326): `None` means sleep and
retry; a frame failing the format check at line 312
(`frame.ndim != 3 or frame.shape[2] != 3`) is logged and dropped and the
iteration restarts; otherwise the frame (made contiguous if needed) is
handed to `blur_renderer.process`.  The negotiated `input_format` is a
parameter of the iteration but — exactly as in the source — the frame
check never consults it. -/
def runningIteration (fmt : GLFormat) (frame : Option NpArray) : IterStep :=
  match fmt, frame with
  | _, none => .sleepRetry
  | _, some f =>
    if f.shape.length ≠ 3 ∨ f.shape.getD 2 0 ≠ 3 then
      .dropLogged
    else
      .processed (if f.contiguous then f else mkContiguous f)

/-- Pipeline state after one running-loop iteration: every branch of the
loop body (`continue` on a missing or dropped frame, or a full
process/present cycle) falls through to the next `while` test, so the
pipeline stays `Running`. -/
def stateAfterIteration (_ : IterStep) : PipelineState :=
  .running

/-! ## Self-exclusion manager (C5, C8), from `_attempt_exclude_from_capture`
and the startup section of `main`, plus the capture entry point of
`dxgi_capture.py`. -/

/-- Embedding of `_attempt_exclude_from_capture`
(`no-eyetracking-render-loop.py` lines 96-111): without a window handle the
attempt returns `False`; otherwise the result is the boolean outcome of the
`SetWindowDisplayAffinity(hwnd, WDA_EXCLUDEFROMCAPTURE)` OS call, which is
modelled by the `osOk` parameter. -/
def attemptExcludeFromCapture (hwnd : ℕ) (osOk : Bool) : Bool :=
  if hwnd = 0 then false else osOk

/-- Exclusion status recorded at startup (spec section 3,
`ExclusionStatus`). -/
structure ExclusionStatus where
  attempted : Bool
  succeeded : Bool
deriving DecidableEq

/-- The exclusion status after the single startup attempt at
`no-eyetracking-render-loop.py` line 238 (`excluded = ...`). -/
def exclusionStatusAfterStartup (hwnd : ℕ) (osOk : Bool) : ExclusionStatus :=
  { attempted := true, succeeded := attemptExcludeFromCapture hwnd osOk }

/-- The full argument list of `capture_desktop_excluding_hwnd`
(`dxgi_capture.py` lines 88-92): a monitor index, an optional target frame
rate, and the RGB-conversion flag.  No other argument exists. -/
structure CaptureCall where
  outputIdx : ℕ
  targetFps : Option ℕ
  rgb : Bool
deriving DecidableEq

/-- The capture call the render loop makes every iteration
(`no-eyetracking-render-loop.py` line 305:
`capture_desktop_excluding_hwnd(rgb=force_rgb)`; the other two parameters
keep their defaults `output_idx=0`, `target_fps=None`). -/
def loopCaptureCall (forceRgb : Bool) : CaptureCall :=
  { outputIdx := 0, targetFps := none, rgb := forceRgb }

/-- Surface handle the Capture Source is given to skip explicitly.  The
signature of `capture_desktop_excluding_hwnd` (`dxgi_capture.py` lines
88-108) carries no window handle and `DXCamCapture.start` configures
`dxcam.create(output_idx=...)` with no exclusion handle either, so every
capture call carries no skip handle. -/
def guardHandlePassedToCapture (_ : CaptureCall) : Option ℕ :=
  none

/-- Modelled from the spec: the `capture_guard_handle()` method of the
Self-Exclusion Manager described in spec section 4.2, which the source does
not contain — it returns the presentation-surface handle when exclusion
failed and `None` when it succeeded. -/
def capture_guard_handle_spec (st : ExclusionStatus) (surfaceHwnd : ℕ) :
    Option ℕ :=
  if st.succeeded then none else some surfaceHwnd

/-- Outcome of the startup sequence of `main` once a window exists. -/
inductive StartupOutcome where
  | exitNoFrame
  | exitBadFormat
  | running (fmt : GLFormat)
deriving DecidableEq

/-- Result of the startup sequence: the recorded exclusion outcome, whether
the feedback-loop warning was printed, how many exclusion attempts were
made, and whether the render loop was reached. -/
structure StartupResult where
  excluded : Bool
  warned : Bool
  exclusionAttempts : ℕ
  outcome : StartupOutcome

/-- Embedding of the startup sequence of `main`
(`no-eyetracking-render-loop.py` lines 237-282): exactly one exclusion
attempt (line 238), a warning iff it failed (lines 240-241), then the
first-frame wait (`firstFrame = none` models closing the window before any
frame arrives, line 251), format negotiation (lines 261-271) and entry into
the render loop.  No branch of the sequence consults the exclusion
result. -/
def startup (hwnd : ℕ) (osOk : Bool) (isBgr : Bool)
    (firstFrame : Option NpArray) : StartupResult :=
  let excluded := attemptExcludeFromCapture hwnd osOk
  { excluded := excluded
    warned := !excluded
    exclusionAttempts := 1
    outcome :=
      match firstFrame with
      | none => .exitNoFrame
      | some f =>
        match negotiate isBgr f with
        | none => .exitBadFormat
        | some fmt => .running fmt }

/-! ## GPU resource lifecycle and `cleanup` (C6) -/

/-- OpenGL error conditions relevant to the delete calls. -/
inductive GLErr where
  | invalidValue
deriving DecidableEq

/-- Observable GL name state: the sets of live program, texture,
framebuffer and vertex-array names, plus the recorded error flags. -/
structure GLState where
  programs : List ℕ
  textures : List ℕ
  fbos : List ℕ
  vaos : List ℕ
  errors : List GLErr
deriving DecidableEq

/-- Modelled GL semantics of `glDeleteProgram`: the value 0 is silently
ignored; deleting a live program name removes it; a name that is not a
live program generates `GL_INVALID_VALUE`. -/
def glDeleteProgram (s : GLState) (n : ℕ) : GLState :=
  if n = 0 then s
  else if n ∈ s.programs then
    { s with programs := s.programs.filter (fun m => m ≠ n) }
  else
    { s with errors := s.errors ++ [.invalidValue] }

/-- Modelled GL semantics of `glDeleteTextures`: listed names that are live
textures are removed; zeros and unknown names are silently ignored. -/
def glDeleteTextures (s : GLState) (ns : List ℕ) : GLState :=
  { s with textures := s.textures.filter (fun m => m ∉ ns) }

/-- Modelled GL semantics of `glDeleteFramebuffers`: listed names that are
live framebuffers are removed; unknown names are silently ignored. -/
def glDeleteFramebuffers (s : GLState) (ns : List ℕ) : GLState :=
  { s with fbos := s.fbos.filter (fun m => m ∉ ns) }

/-- Modelled GL semantics of `glDeleteVertexArrays`: listed names that are
live vertex arrays are removed; unknown names are silently ignored. -/
def glDeleteVertexArrays (s : GLState) (ns : List ℕ) : GLState :=
  { s with vaos := s.vaos.filter (fun m => m ∉ ns) }

/-- The GL object names held by a `GaussianBlurRenderer` instance
(`self.prog_h`, `self.prog_v`, `self.tex_in`, `self.tex_temp`,
`self.tex_out`, `self.fbo_temp`, `self.fbo_out`, `self.vao`). -/
structure EngineIds where
  progH : ℕ
  progV : ℕ
  texIn : ℕ
  texTemp : ℕ
  texOut : ℕ
  fboTemp : ℕ
  fboOut : ℕ
  vao : ℕ
deriving DecidableEq

/-- Embedding of `GaussianBlurRenderer.cleanup`
(`render_blur.py` lines 319-327), in source order: delete both programs,
the three textures, the two framebuffers and the vertex array object.  The
instance attributes holding the names are never cleared or guarded, so a
second call re-issues the same deletions with the stale names. -/
def cleanup (e : EngineIds) (s : GLState) : GLState :=
  glDeleteVertexArrays
    (glDeleteFramebuffers
      (glDeleteTextures
        (glDeleteProgram (glDeleteProgram s e.progH) e.progV)
        [e.texIn, e.texTemp, e.texOut])
      [e.fboTemp, e.fboOut])
    [e.vao]

/-- Embedding of the shutdown path of `main`
(`no-eyetracking-render-loop.py` lines 366-372): the `finally` block calls
`blur_renderer.cleanup()` once, whether the loop body finished normally or
raised — `body` is the loop's outcome and is returned unchanged
alongside the state after the one cleanup call. -/
def shutdownFromLoop (body : Except String Unit) (e : EngineIds)
    (s : GLState) : Except String Unit × GLState :=
  (body, cleanup e s)

/-! ## `set_params` (C10) -/

/-- A Python number as `set_params` may receive one: an `int` or a
`float` (floats idealized as rationals). -/
inductive PyNum where
  | i (n : ℤ)
  | f (q : ℚ)
deriving DecidableEq

/-- Truncation toward zero, the behaviour of Python `int()` on a float. -/
def ratTrunc (q : ℚ) : ℤ :=
  if 0 ≤ q then ⌊q⌋ else ⌈q⌉

/-- Python `int(x)` on a number: identity on ints, truncation on floats.
It never raises on a (finite) number, whatever its sign. -/
def pyIntOfNum (x : PyNum) : ℤ :=
  match x with
  | .i n => n
  | .f q => ratTrunc q

/-- Python `float(x)` on a number: identity on floats, exact conversion on
ints.  It never raises on a number, whatever its sign. -/
def pyFloatOfNum (x : PyNum) : ℚ :=
  match x with
  | .i n => (n : ℚ)
  | .f q => q

/-- The per-channel blur uniforms as `set_params` leaves them in the two
shader programs (`uRadiusRGB` via `glUniform3i`, `uSigmaRGB` via
`glUniform3f`). -/
structure BlurUniforms where
  radius : ℤ × ℤ × ℤ
  sigma : ℚ × ℚ × ℚ
deriving DecidableEq

/-- Embedding of `GaussianBlurRenderer.set_params`
(`render_blur.py` lines 198-206): `map(int, radius_rgb)` and
`map(float, sigma_rgb)` coerce the three components of each tuple and the
results are forwarded to the shader uniforms unchanged.  No range or sign
check of any kind is performed. -/
def set_params (radius_rgb : PyNum × PyNum × PyNum)
    (sigma_rgb : PyNum × PyNum × PyNum) : BlurUniforms :=
  { radius := (pyIntOfNum radius_rgb.1, pyIntOfNum radius_rgb.2.1,
      pyIntOfNum radius_rgb.2.2)
    sigma := (pyFloatOfNum sigma_rgb.1, pyFloatOfNum sigma_rgb.2.1,
      pyFloatOfNum sigma_rgb.2.2) }

/-- The documented `BlurParameters` invariant of the data model
(spec section 3): each radius is non-negative and each sigma is
positive. -/
def blurUniformsValid (u : BlurUniforms) : Prop :=
  0 ≤ u.radius.1 ∧ 0 ≤ u.radius.2.1 ∧ 0 ≤ u.radius.2.2 ∧
    0 < u.sigma.1 ∧ 0 < u.sigma.2.1 ∧ 0 < u.sigma.2.2

/-! ## Settings loader (C9), from `utility/load_settings.py`

Python text is modelled as `List Char`.  Simplifications that do not affect
the settings files the claims are about, noted here once: Python's
`float()` also accepts `inf`/`nan` spellings and digit-group underscores,
and `int()` accepts underscores; these spellings are not modelled. -/

/-- The double-quote character. -/
def quoteChar : Char := Char.ofNat 34

/-- The single-quote character. -/
def apostChar : Char := Char.ofNat 39

/-- Whitespace as Python's `str.strip()` removes it. -/
def isPyWS (c : Char) : Bool :=
  c == ' ' || c == '\t' || c == '\n' || c == '\r'

/-- Python `str.strip()`: drop leading and trailing whitespace. -/
def pyStrip (l : List Char) : List Char :=
  ((l.dropWhile isPyWS).reverse.dropWhile isPyWS).reverse

/-- Helper of `splitOnChar`, accumulating the current piece in reverse. -/
def splitOnCharAux (sep : Char) : List Char → List Char → List (List Char)
  | [], acc => [acc.reverse]
  | c :: rest, acc =>
    if c == sep then acc.reverse :: splitOnCharAux sep rest []
    else splitOnCharAux sep rest (c :: acc)

/-- Split a character list on every occurrence of `sep` (Python
`str.split(sep)` for a single-character separator, and line iteration for
`sep = '\n'`). -/
def splitOnChar (sep : Char) (l : List Char) : List (List Char) :=
  splitOnCharAux sep l []

/-- Helper of `splitEqOnce`, accumulating the key part in reverse. -/
def splitEqOnceAux : List Char → List Char → Option (List Char × List Char)
  | [], _ => none
  | c :: rest, acc =>
    if c == '=' then some (acc.reverse, rest)
    else splitEqOnceAux rest (c :: acc)

/-- Python `line.split('=', 1)` preceded by the `'=' in line` test: `none`
when the line has no `'='`, otherwise the text before the first `'='` and
everything after it. -/
def splitEqOnce (l : List Char) : Option (List Char × List Char) :=
  splitEqOnceAux l []

/-- Python `str.isdigit()` restricted to ASCII: non-empty and all digits. -/
def pyIsdigit (l : List Char) : Bool :=
  !l.isEmpty && l.all Char.isDigit

/-- Numeric value of a digit list. -/
def digitsToNat (l : List Char) : ℕ :=
  l.foldl (fun acc c => 10 * acc + (c.toNat - 48)) 0

/-- Python `int(s)` on a stripped string: optional sign followed by
digits. -/
def pyIntParse (l : List Char) : Option ℤ :=
  match l with
  | '+' :: ds => if pyIsdigit ds then some (digitsToNat ds) else none
  | '-' :: ds => if pyIsdigit ds then some (-(digitsToNat ds : ℤ)) else none
  | ds => if pyIsdigit ds then some (digitsToNat ds) else none

/-- Exponent-part continuation of `pyFloatParse`: after the mantissa,
either the end of input or `e`/`E`, an optional sign and a non-empty digit
run. -/
def pyFloatExpPart (sgn : ℚ) (ip fp rest : List Char) : Option ℚ :=
  let base : ℚ := (digitsToNat ip : ℚ) + (digitsToNat fp : ℚ) / 10 ^ fp.length
  match rest with
  | [] => some (sgn * base)
  | c :: r =>
    if c == 'e' || c == 'E' then
      let (esgn, r2) : ℤ × List Char :=
        match r with
        | '+' :: t => (1, t)
        | '-' :: t => (-1, t)
        | t => (1, t)
      let ed := r2.takeWhile Char.isDigit
      let r3 := r2.dropWhile Char.isDigit
      if ed.isEmpty || !r3.isEmpty then none
      else some (sgn * base * 10 ^ (esgn * (digitsToNat ed : ℤ)))
    else none

/-- Python `float(s)` on a stripped string, for finite decimal and
scientific literals: optional sign, a mantissa that is digits, digits dot
digits, digits dot, or dot digits, and an optional exponent. -/
def pyFloatParse (l : List Char) : Option ℚ :=
  let (sgn, l1) : ℚ × List Char :=
    match l with
    | '+' :: r => (1, r)
    | '-' :: r => (-1, r)
    | r => (1, r)
  let ip := l1.takeWhile Char.isDigit
  let l2 := l1.dropWhile Char.isDigit
  match l2 with
  | '.' :: r3 =>
    let fp := r3.takeWhile Char.isDigit
    let l4 := r3.dropWhile Char.isDigit
    if ip.isEmpty && fp.isEmpty then none
    else pyFloatExpPart sgn ip fp l4
  | _ => if ip.isEmpty then none else pyFloatExpPart sgn ip [] l2

/-- A parsed Python settings value as `load_settings` produces it. -/
inductive PyVal where
  | int (n : ℤ)
  | float (q : ℚ)
  | bool (b : Bool)
  | str (s : List Char)
  | tuple (vs : List PyVal)

/-- One element of a comma-separated value: Python tries `float(p)` when the
part contains a dot and `int(p)` otherwise (`load_settings.py` lines
72-77). -/
def parseTupleElem (p : List Char) : Option PyVal :=
  if p.contains '.' then (pyFloatParse p).map .float
  else (pyIntParse p).map .int

/-- All-or-nothing parse of the comma-separated parts: Python collects
numeric parts and falls back to a tuple of strings as soon as one part
fails (`load_settings.py` lines 71-90). -/
def parseTupleParts : List (List Char) → Option (List PyVal)
  | [] => some []
  | p :: ps =>
    match parseTupleElem p, parseTupleParts ps with
    | some v, some vs => some (v :: vs)
    | _, _ => none

/-- Lower-case a character list, Python `str.lower()` for ASCII. -/
def pyLower (l : List Char) : List Char :=
  l.map Char.toLower

/-- Embedding of the value-parsing cascade of `load_settings`
(`load_settings.py` lines 35-93), in source order: quote stripping, int,
float, boolean, comma-separated tuple (numeric if every part parses, else
a tuple of strings), and finally a plain string. -/
def parseValue (v : List Char) : PyVal :=
  let quoted :=
    match v with
    | c :: _ => (c == quoteChar || c == apostChar) && v.getLast? == some c
    | [] => false
  if quoted then .str ((v.drop 1).dropLast)
  else if pyIsdigit v then .int (digitsToNat v)
  else if (match v with
    | '-' :: ds => pyIsdigit ds
    | _ => false) then
    .int (-(digitsToNat (v.drop 1) : ℤ))
  else
    match pyFloatParse v with
    | some q => .float q
    | none =>
      if pyLower v = "true".data then .bool true
      else if pyLower v = "false".data then .bool false
      else if v.contains ',' then
        let parts := (splitOnChar ',' v).map pyStrip
        match parseTupleParts parts with
        | some vs => .tuple vs
        | none => .tuple (parts.map .str)
      else .str v

/-- A Python dict of settings: insertion-ordered key-value pairs with
unique keys. -/
abbrev SettingsDict := List (List Char × PyVal)

/-- Python dict assignment `settings[key] = value`: overwrite in place when
the key exists, append otherwise. -/
def dictSet (d : SettingsDict) (k : List Char) (v : PyVal) : SettingsDict :=
  if d.any (fun kv => kv.1 == k) then
    d.map (fun kv => if kv.1 == k then (k, v) else kv)
  else d ++ [(k, v)]

/-- Python `settings_dict` lookup for a key. -/
def dictGet (d : SettingsDict) (k : List Char) : Option PyVal :=
  (d.find? (fun kv => kv.1 == k)).map (fun kv => kv.2)

/-- Embedding of the per-line handling of `load_settings`
(`load_settings.py` lines 15-93): strip the line; skip blank and `#` lines;
skip lines without `'='`; split once on `'='`; strip key and value; skip
empty keys; otherwise parse the value and assign it. -/
def parseLine (d : SettingsDict) (line : List Char) : SettingsDict :=
  let l := pyStrip line
  if l.isEmpty || l.head? == some '#' then d
  else
    match splitEqOnce l with
    | none => d
    | some (k0, v0) =>
      let k := pyStrip k0
      let v := pyStrip v0
      if k.isEmpty then d
      else dictSet d k (parseValue v)

/-- Embedding of `load_settings` (`load_settings.py` lines 1-102): a missing
file (`none`) yields the empty dict, otherwise every line of the file text
is processed in order. -/
def load_settings (file : Option (List Char)) : SettingsDict :=
  match file with
  | none => []
  | some content => (splitOnChar '\n' content).foldl parseLine []

/-- The unpacked settings tuple in the order `unpack_settings` returns it. -/
structure Unpacked where
  target_fps : PyVal
  force_rgb : PyVal
  capture_format : PyVal
  debug_gl_finish : PyVal
  gl_finish_interval : PyVal
  overlay_size : PyVal
  overlay_pos : PyVal
  radius_rgb : PyVal
  sigma_rgb : PyVal
  shader_path : PyVal

/-- The defaults dict of `unpack_settings` (`load_settings.py` lines
118-129). -/
def defaultSettings : Unpacked :=
  { target_fps := .int 60
    force_rgb := .bool false
    capture_format := .str "rgb".data
    debug_gl_finish := .bool true
    gl_finish_interval := .int 60
    overlay_size := .tuple [.int 2560, .int 1440]
    overlay_pos := .tuple [.int 0, .int 0]
    radius_rgb := .tuple [.int 0, .int 2, .int 6]
    sigma_rgb := .tuple [.float (1 / 1000), .float 1, .float 3]
    shader_path := .str "shader/blur.glsl".data }

/-- Python `isinstance(value, tuple) and len(value) == n`. -/
def isTupleOfLen (n : ℕ) (v : PyVal) : Bool :=
  match v with
  | .tuple l => l.length == n
  | _ => false

/-- Field update rule of `unpack_settings` (`load_settings.py` lines
132-141): a key present in the dict replaces the default; for the four
tuple-typed keys the replacement happens only when the value is a tuple of
the default's length, otherwise the default is kept; every other key's
value is taken without any check. -/
def unpackField (d : SettingsDict) (key : List Char) (dflt : PyVal)
    (tupleLen : Option ℕ) : PyVal :=
  match dictGet d key with
  | none => dflt
  | some v =>
    match tupleLen with
    | some n => if isTupleOfLen n v then v else dflt
    | none => v

/-- Embedding of `unpack_settings` (`load_settings.py` lines 105-154). -/
def unpack_settings (d : SettingsDict) : Unpacked :=
  { target_fps := unpackField d "target_fps".data (.int 60) none
    force_rgb := unpackField d "force_rgb".data (.bool false) none
    capture_format := unpackField d "capture_format".data (.str "rgb".data) none
    debug_gl_finish := unpackField d "debug_gl_finish".data (.bool true) none
    gl_finish_interval :=
      unpackField d "gl_finish_interval".data (.int 60) none
    overlay_size := unpackField d "overlay_size".data
      (.tuple [.int 2560, .int 1440]) (some 2)
    overlay_pos := unpackField d "overlay_pos".data
      (.tuple [.int 0, .int 0]) (some 2)
    radius_rgb := unpackField d "radius_rgb".data
      (.tuple [.int 0, .int 2, .int 6]) (some 3)
    sigma_rgb := unpackField d "sigma_rgb".data
      (.tuple [.float (1 / 1000), .float 1, .float 3]) (some 3)
    shader_path :=
      unpackField d "shader_path".data (.str "shader/blur.glsl".data) none }

/-- A value that is a tuple of exactly three numbers (ints or floats) —
what the spec means by a numeric 3-tuple for `radius_per_channel` and
`sigma_per_channel`. -/
def isNumericTriple (v : PyVal) : Bool :=
  match v with
  | .tuple [a, b, c] =>
    (match a with | .int _ => true | .float _ => true | _ => false) &&
    (match b with | .int _ => true | .float _ => true | _ => false) &&
    (match c with | .int _ => true | .float _ => true | _ => false)
  | _ => false

/-! ## Helper lemmas: Gaussian weights, quantization, pass bounds -/

theorem sumGauss_pos (σ : ℝ) (r : ℕ) : 0 < ∑ j ∈ taps r, gaussWeight σ j := by
  apply Finset.sum_pos
  · intro i _
    exact Real.exp_pos _
  · exact ⟨0, by simp [taps]⟩

theorem normWeight_nonneg (σ : ℝ) (r : ℕ) (i : ℤ) : 0 ≤ normWeight σ r i :=
  div_nonneg (Real.exp_pos _).le (sumGauss_pos σ r).le

theorem sum_normWeight (σ : ℝ) (r : ℕ) :
    ∑ i ∈ taps r, normWeight σ r i = 1 := by
  unfold normWeight
  rw [← Finset.sum_div]
  exact div_self (sumGauss_pos σ r).ne'

theorem toRealVal_nonneg (k : Fin 256) : 0 ≤ toRealVal k := by
  unfold toRealVal
  positivity

theorem toRealVal_le_one (k : Fin 256) : toRealVal k ≤ 1 := by
  unfold toRealVal
  rw [div_le_one (by norm_num : (0:ℝ) < 255)]
  have hk : (k : ℕ) ≤ 255 := Nat.lt_succ_iff.mp k.isLt
  exact_mod_cast hk

theorem quantizeVal_exact (k : Fin 256) : quantizeVal (toRealVal k) = k := by
  apply Fin.ext
  show min (round ((255:ℝ) * ((k:ℝ) / 255))).toNat 255 = k.val
  have h1 : (255:ℝ) * ((k:ℝ) / 255) = ((k.val : ℕ) : ℝ) := by
    field_simp
  rw [h1, round_natCast]
  simp
  omega

theorem quantizeVal_err (v : ℝ) (h0 : 0 ≤ v) (h1 : v ≤ 1) :
    |toRealVal (quantizeVal v) - v| ≤ 1 / 510 := by
  have hr0 : 0 ≤ round (255 * v) := by
    rw [round_eq]
    exact Int.le_floor.mpr (by push_cast; linarith)
  have hr1 : round (255 * v) ≤ 255 := by
    rw [round_eq]
    have : ⌊255 * v + 1/2⌋ < 256 := Int.floor_lt.mpr (by push_cast; linarith)
    omega
  have hmin : min (round (255 * v)).toNat 255 = (round (255 * v)).toNat := by
    omega
  have hcast : (((min (round (255 * v)).toNat 255 : ℕ)) : ℝ)
      = ((round (255 * v) : ℤ) : ℝ) := by
    rw [hmin]
    exact_mod_cast Int.toNat_of_nonneg hr0
  have herr : |((round (255 * v) : ℤ) : ℝ) - 255 * v| ≤ 1/2 := by
    rw [abs_sub_comm]
    exact abs_sub_round _
  show |((min (round (255 * v)).toNat 255 : ℕ) : ℝ) / 255 - v| ≤ 1 / 510
  rw [hcast]
  have hd : ((round (255 * v) : ℤ) : ℝ) / 255 - v
      = (((round (255 * v) : ℤ) : ℝ) - 255 * v) / 255 := by
    ring
  rw [hd, abs_div, abs_of_pos (by norm_num : (0:ℝ) < 255)]
  linarith

theorem sum_weighted_nonneg {s : Finset ℤ} {w f : ℤ → ℝ}
    (hw : ∀ i ∈ s, 0 ≤ w i) (hf : ∀ i ∈ s, 0 ≤ f i) :
    0 ≤ ∑ i ∈ s, w i * f i :=
  Finset.sum_nonneg fun i hi => mul_nonneg (hw i hi) (hf i hi)

theorem sum_weighted_le_one {s : Finset ℤ} {w f : ℤ → ℝ}
    (hw : ∀ i ∈ s, 0 ≤ w i) (hsum : ∑ i ∈ s, w i = 1)
    (hf : ∀ i ∈ s, f i ≤ 1) : ∑ i ∈ s, w i * f i ≤ 1 := by
  calc ∑ i ∈ s, w i * f i ≤ ∑ i ∈ s, w i := by
        apply Finset.sum_le_sum
        intro i hi
        calc w i * f i ≤ w i * 1 :=
              mul_le_mul_of_nonneg_left (hf i hi) (hw i hi)
          _ = w i := mul_one _
    _ = 1 := hsum

theorem sum_weighted_diff_le {s : Finset ℤ} {w f g : ℤ → ℝ} {ε : ℝ}
    (hw : ∀ i ∈ s, 0 ≤ w i) (hsum : ∑ i ∈ s, w i = 1)
    (hfg : ∀ i ∈ s, |f i - g i| ≤ ε) :
    |∑ i ∈ s, w i * f i - ∑ i ∈ s, w i * g i| ≤ ε := by
  have h1 : ∑ i ∈ s, w i * f i - ∑ i ∈ s, w i * g i
      = ∑ i ∈ s, w i * (f i - g i) := by
    rw [← Finset.sum_sub_distrib]
    exact Finset.sum_congr rfl fun i _ => by ring
  rw [h1]
  calc |∑ i ∈ s, w i * (f i - g i)| ≤ ∑ i ∈ s, |w i * (f i - g i)| :=
        Finset.abs_sum_le_sum_abs _ s
    _ ≤ ∑ i ∈ s, w i * ε := by
        apply Finset.sum_le_sum
        intro i hi
        rw [abs_mul, abs_of_nonneg (hw i hi)]
        exact mul_le_mul_of_nonneg_left (hfg i hi) (hw i hi)
    _ = (∑ i ∈ s, w i) * ε := by rw [Finset.sum_mul]
    _ = ε := by rw [hsum, one_mul]

theorem hPass_bounds (w : ℕ) (radius : Fin 3 → ℕ) (sigma : Fin 3 → ℝ)
    (f : RealImg) (hf : ∀ x y c, 0 ≤ f x y c ∧ f x y c ≤ 1)
    (x y : ℕ) (c : Fin 3) :
    0 ≤ hPass w radius sigma f x y c ∧ hPass w radius sigma f x y c ≤ 1 := by
  unfold hPass
  exact ⟨sum_weighted_nonneg (fun i _ => normWeight_nonneg _ _ i)
      (fun i _ => (hf _ _ _).1),
    sum_weighted_le_one (fun i _ => normWeight_nonneg _ _ i)
      (sum_normWeight _ _) (fun i _ => (hf _ _ _).2)⟩

theorem vPass_bounds (hgt : ℕ) (radius : Fin 3 → ℕ) (sigma : Fin 3 → ℝ)
    (f : RealImg) (hf : ∀ x y c, 0 ≤ f x y c ∧ f x y c ≤ 1)
    (x y : ℕ) (c : Fin 3) :
    0 ≤ vPass hgt radius sigma f x y c ∧ vPass hgt radius sigma f x y c ≤ 1 := by
  unfold vPass
  exact ⟨sum_weighted_nonneg (fun j _ => normWeight_nonneg _ _ j)
      (fun j _ => (hf _ _ _).1),
    sum_weighted_le_one (fun j _ => normWeight_nonneg _ _ j)
      (sum_normWeight _ _) (fun j _ => (hf _ _ _).2)⟩

theorem vPass_diff_le (hgt : ℕ) (radius : Fin 3 → ℕ) (sigma : Fin 3 → ℝ)
    (f g : RealImg) (ε : ℝ) (hfg : ∀ x y c, |f x y c - g x y c| ≤ ε)
    (x y : ℕ) (c : Fin 3) :
    |vPass hgt radius sigma f x y c - vPass hgt radius sigma g x y c| ≤ ε := by
  unfold vPass
  exact sum_weighted_diff_le (fun j _ => normWeight_nonneg _ _ j)
    (sum_normWeight _ _) (fun j _ => hfg _ _ _)

theorem gaussWeight2_factor (σ : ℝ) (i j : ℤ) :
    gaussWeight2 σ i j = gaussWeight σ i * gaussWeight σ j := by
  unfold gaussWeight2 gaussWeight
  rw [← Real.exp_add]
  congr 1
  ring

theorem direct2D_normalized (w hgt : ℕ) (radius : Fin 3 → ℕ)
    (sigma : Fin 3 → ℝ) (f : RealImg) (x y : ℕ) (c : Fin 3) :
    direct2D w hgt radius sigma f x y c =
      ∑ i ∈ taps (radius c), ∑ j ∈ taps (radius c),
        normWeight (sigma c) (radius c) i * normWeight (sigma c) (radius c) j *
          f (clampIdx w ((x : ℤ) + i)) (clampIdx hgt ((y : ℤ) + j)) c := by
  unfold direct2D
  have hS2 : ∑ i ∈ taps (radius c), ∑ j ∈ taps (radius c),
      gaussWeight2 (sigma c) i j
      = (∑ i ∈ taps (radius c), gaussWeight (sigma c) i) *
        (∑ j ∈ taps (radius c), gaussWeight (sigma c) j) := by
    rw [Finset.sum_mul_sum]
    exact Finset.sum_congr rfl fun i _ => Finset.sum_congr rfl fun j _ =>
      gaussWeight2_factor _ i j
  rw [hS2, Finset.sum_div]
  apply Finset.sum_congr rfl
  intro i _
  rw [Finset.sum_div]
  apply Finset.sum_congr rfl
  intro j _
  rw [gaussWeight2_factor]
  unfold normWeight
  ring

theorem twoPass_eq_direct2D (w hgt : ℕ) (radius : Fin 3 → ℕ)
    (sigma : Fin 3 → ℝ) (f : RealImg) (x y : ℕ) (c : Fin 3) :
    vPass hgt radius sigma (hPass w radius sigma f) x y c =
      direct2D w hgt radius sigma f x y c := by
  rw [direct2D_normalized]
  show ∑ j ∈ taps (radius c), normWeight (sigma c) (radius c) j *
      (∑ i ∈ taps (radius c), normWeight (sigma c) (radius c) i *
        f (clampIdx w ((x : ℤ) + i)) (clampIdx hgt ((y : ℤ) + j)) c) = _
  calc ∑ j ∈ taps (radius c), normWeight (sigma c) (radius c) j *
      (∑ i ∈ taps (radius c), normWeight (sigma c) (radius c) i *
        f (clampIdx w ((x : ℤ) + i)) (clampIdx hgt ((y : ℤ) + j)) c)
      = ∑ j ∈ taps (radius c), ∑ i ∈ taps (radius c),
          normWeight (sigma c) (radius c) j *
            (normWeight (sigma c) (radius c) i *
              f (clampIdx w ((x : ℤ) + i)) (clampIdx hgt ((y : ℤ) + j)) c) :=
        Finset.sum_congr rfl fun j _ => Finset.mul_sum _ _ _
    _ = ∑ i ∈ taps (radius c), ∑ j ∈ taps (radius c),
          normWeight (sigma c) (radius c) j *
            (normWeight (sigma c) (radius c) i *
              f (clampIdx w ((x : ℤ) + i)) (clampIdx hgt ((y : ℤ) + j)) c) :=
        Finset.sum_comm
    _ = ∑ i ∈ taps (radius c), ∑ j ∈ taps (radius c),
          normWeight (sigma c) (radius c) i * normWeight (sigma c) (radius c) j *
            f (clampIdx w ((x : ℤ) + i)) (clampIdx hgt ((y : ℤ) + j)) c :=
        Finset.sum_congr rfl fun i _ => Finset.sum_congr rfl fun j _ => by ring

theorem taps_zero : taps 0 = {0} := by
  simp [taps]

theorem normWeight_radius_zero (σ : ℝ) : normWeight σ 0 0 = 1 := by
  unfold normWeight
  rw [taps_zero, Finset.sum_singleton]
  exact div_self (Real.exp_pos _).ne'

theorem clampIdx_of_lt {n x : ℕ} (hx : x < n) : clampIdx n (x : ℤ) = x := by
  unfold clampIdx
  omega

theorem hPass_radius_zero (w : ℕ) (radius : Fin 3 → ℕ) (sigma : Fin 3 → ℝ)
    (f : RealImg) {c : Fin 3} (hr : radius c = 0) {x : ℕ} (hx : x < w)
    (y : ℕ) : hPass w radius sigma f x y c = f x y c := by
  unfold hPass
  rw [hr, taps_zero, Finset.sum_singleton, normWeight_radius_zero, one_mul,
    add_zero, clampIdx_of_lt hx]

theorem vPass_radius_zero (hgt : ℕ) (radius : Fin 3 → ℕ) (sigma : Fin 3 → ℝ)
    (f : RealImg) {c : Fin 3} (hr : radius c = 0) (x : ℕ) {y : ℕ}
    (hy : y < hgt) : vPass hgt radius sigma f x y c = f x y c := by
  unfold vPass
  rw [hr, taps_zero, Finset.sum_singleton, normWeight_radius_zero, one_mul,
    add_zero, clampIdx_of_lt hy]

/-! ## Claim theorems -/

/-- C2.  For every input frame and every per-channel (radius, sigma)
configuration, the horizontal 1-D pass followed by the vertical 1-D pass,
as `GaussianBlurRenderer.process` performs them (including the 8-bit
quantization of the `GL_RGB8` intermediate and output textures), agrees
with the direct evaluation of the full normalized 2-D Gaussian convolution
with the same per-channel sigma, with a per-pixel channel error of at most
1/255. -/
theorem claim_C2_twopass_matches_direct2D (w hgt : ℕ) (radius : Fin 3 → ℕ)
    (sigma : Fin 3 → ℝ) (img : Img) (x y : ℕ) (c : Fin 3) :
    |toRealVal (processModel w hgt radius sigma img x y c) -
      direct2D w hgt radius sigma (toRealImg img) x y c| ≤ 1 / 255 := by
  have hf : ∀ a b d, 0 ≤ toRealImg img a b d ∧ toRealImg img a b d ≤ 1 :=
    fun _ _ _ => ⟨toRealVal_nonneg _, toRealVal_le_one _⟩
  have hTb := hPass_bounds w radius sigma (toRealImg img) hf
  have hTqb : ∀ a b d,
      0 ≤ toRealImg (quantizeImg (hPass w radius sigma (toRealImg img))) a b d ∧
        toRealImg (quantizeImg (hPass w radius sigma (toRealImg img))) a b d ≤ 1 :=
    fun _ _ _ => ⟨toRealVal_nonneg _, toRealVal_le_one _⟩
  have hTq_err : ∀ a b d,
      |toRealImg (quantizeImg (hPass w radius sigma (toRealImg img))) a b d -
        hPass w radius sigma (toRealImg img) a b d| ≤ 1 / 510 :=
    fun a b d => quantizeVal_err _ (hTb a b d).1 (hTb a b d).2
  have hV1b := vPass_bounds hgt radius sigma
    (toRealImg (quantizeImg (hPass w radius sigma (toRealImg img)))) hTqb x y c
  have h1 : |toRealVal (processModel w hgt radius sigma img x y c) -
      vPass hgt radius sigma
        (toRealImg (quantizeImg (hPass w radius sigma (toRealImg img)))) x y c|
      ≤ 1 / 510 :=
    quantizeVal_err _ hV1b.1 hV1b.2
  have h2 : |vPass hgt radius sigma
        (toRealImg (quantizeImg (hPass w radius sigma (toRealImg img)))) x y c -
      vPass hgt radius sigma (hPass w radius sigma (toRealImg img)) x y c|
      ≤ 1 / 510 :=
    vPass_diff_le hgt radius sigma _ _ (1 / 510) hTq_err x y c
  have h3 := twoPass_eq_direct2D w hgt radius sigma (toRealImg img) x y c
  calc |toRealVal (processModel w hgt radius sigma img x y c) -
      direct2D w hgt radius sigma (toRealImg img) x y c|
      ≤ |toRealVal (processModel w hgt radius sigma img x y c) -
          vPass hgt radius sigma
            (toRealImg (quantizeImg (hPass w radius sigma (toRealImg img)))) x y c| +
        |vPass hgt radius sigma
            (toRealImg (quantizeImg (hPass w radius sigma (toRealImg img)))) x y c -
          direct2D w hgt radius sigma (toRealImg img) x y c| :=
        abs_sub_le _ _ _
    _ ≤ 1 / 510 + 1 / 510 := add_le_add h1 (h3 ▸ h2)
    _ = 1 / 255 := by norm_num

/-- C3.  If the configured radius of channel `c` is 0, the blurred output of
`GaussianBlurRenderer.process` on channel `c` equals the input on channel
`c` exactly, at every pixel of the frame, whatever sigma is configured on
`c` and whatever radii and sigmas are configured on the other channels. -/
theorem claim_C3_radius_zero_identity (w hgt : ℕ) (radius : Fin 3 → ℕ)
    (sigma : Fin 3 → ℝ) (img : Img) (c : Fin 3) (hr : radius c = 0)
    (x y : ℕ) (hx : x < w) (hy : y < hgt) :
    processModel w hgt radius sigma img x y c = img x y c := by
  show quantizeVal (vPass hgt radius sigma
    (toRealImg (quantizeImg (hPass w radius sigma (toRealImg img)))) x y c)
    = img x y c
  rw [vPass_radius_zero hgt radius sigma _ hr x hy]
  show quantizeVal (toRealVal (quantizeVal
    (hPass w radius sigma (toRealImg img) x y c))) = img x y c
  rw [hPass_radius_zero w radius sigma _ hr hx y]
  show quantizeVal (toRealVal (quantizeVal (toRealVal (img x y c)))) = img x y c
  rw [quantizeVal_exact, quantizeVal_exact]

/-- Witness for C3 at a concrete configuration: a 1-by-1 frame with value
7 on channel 0, radius 0 and sigma 1 on every channel. -/
theorem claim_C3_radius_zero_identity_witness :
    (fun _ : Fin 3 => (0 : ℕ)) 0 = 0 ∧ (0 : ℕ) < 1 ∧
      processModel 1 1 (fun _ => 0) (fun _ => 1)
        (fun _ _ _ => (7 : Fin 256)) 0 0 0 = 7 :=
  ⟨rfl, by decide,
    claim_C3_radius_zero_identity 1 1 (fun _ => 0) (fun _ => 1)
      (fun _ _ _ => (7 : Fin 256)) 0 rfl 0 0 (by decide) (by decide)⟩

/-- C7.  Every texture of the GPU surface set (`tex_in`, `tex_temp`,
`tex_out`) is configured with `GL_CLAMP_TO_EDGE` wrapping on both axes;
both convolution passes sample through clamp-to-edge addressing, so a
sample position outside the texture bounds reads the nearest edge pixel
(index 0 below the range, `n-1` above it), and the result differs from
what wrapped (`GL_REPEAT`) or mirrored (`GL_MIRRORED_REPEAT`) addressing
would produce at out-of-range positions. -/
theorem claim_C7_clamp_to_edge_policy :
    (gaussianBlurSurfaces.texIn.wrapS = WrapMode.clampToEdge ∧
      gaussianBlurSurfaces.texIn.wrapT = WrapMode.clampToEdge ∧
      gaussianBlurSurfaces.texTemp.wrapS = WrapMode.clampToEdge ∧
      gaussianBlurSurfaces.texTemp.wrapT = WrapMode.clampToEdge ∧
      gaussianBlurSurfaces.texOut.wrapS = WrapMode.clampToEdge ∧
      gaussianBlurSurfaces.texOut.wrapT = WrapMode.clampToEdge) ∧
    (∀ (w : ℕ) (radius : Fin 3 → ℕ) (sigma : Fin 3 → ℝ) (f : RealImg)
      (x y : ℕ) (c : Fin 3),
      hPass w radius sigma f x y c =
        ∑ i ∈ taps (radius c), normWeight (sigma c) (radius c) i *
          f (wrapSample .clampToEdge w ((x : ℤ) + i)) y c) ∧
    (∀ (hgt : ℕ) (radius : Fin 3 → ℕ) (sigma : Fin 3 → ℝ) (f : RealImg)
      (x y : ℕ) (c : Fin 3),
      vPass hgt radius sigma f x y c =
        ∑ j ∈ taps (radius c), normWeight (sigma c) (radius c) j *
          f x (wrapSample .clampToEdge hgt ((y : ℤ) + j)) c) ∧
    (∀ (n : ℕ) (i : ℤ), 0 < n →
      (i < 0 → wrapSample .clampToEdge n i = 0) ∧
      ((n : ℤ) ≤ i → wrapSample .clampToEdge n i = n - 1) ∧
      (0 ≤ i → i < (n : ℤ) → wrapSample .clampToEdge n i = i.toNat)) ∧
    (wrapSample .clampToEdge 4 6 = 3 ∧ wrapSample .repeatWrap 4 6 = 2 ∧
      wrapSample .mirroredRepeat 4 6 = 1 ∧
      wrapSample .clampToEdge 4 (-3) = 0 ∧ wrapSample .repeatWrap 4 (-3) = 1 ∧
      wrapSample .mirroredRepeat 4 (-3) = 2) := by
  refine ⟨⟨rfl, rfl, rfl, rfl, rfl, rfl⟩, fun _ _ _ _ _ _ _ => rfl,
    fun _ _ _ _ _ _ _ => rfl, fun n i hn => ⟨?_, ?_, ?_⟩, by decide⟩
  · intro hi
    show clampIdx n i = 0
    unfold clampIdx
    omega
  · intro hi
    show clampIdx n i = n - 1
    unfold clampIdx
    omega
  · intro h0 h1
    show clampIdx n i = i.toNat
    unfold clampIdx
    omega

/-- Witness for C7: the clamp-to-edge configuration of the input texture
and the clamp behaviour on a 4-texel axis at out-of-range coordinates -3
and 6. -/
theorem claim_C7_clamp_to_edge_policy_witness :
    gaussianBlurSurfaces.texIn.wrapS = WrapMode.clampToEdge ∧
      wrapSample .clampToEdge 4 (-3) = 0 ∧ wrapSample .clampToEdge 4 6 = 3 :=
  ⟨claim_C7_clamp_to_edge_policy.1.1,
    (claim_C7_clamp_to_edge_policy.2.2.2.1 4 (-3) (by decide)).1 (by decide),
    (claim_C7_clamp_to_edge_policy.2.2.2.1 4 6 (by decide)).2.1 (by decide)⟩

/-- C1 (code bug).  The running-loop frame check of `main`
(`no-eyetracking-render-loop.py` line 312) does not validate against the
negotiated `PixelFormat`: it hard-codes channel count 3.  With a 4-channel
first frame the negotiation fixes `GL_RGBA` (so the claimed behaviour would
be to process subsequent 4-channel frames), yet the loop drops every
4-channel frame, including ones matching the negotiated format.  The check
is also independent of the negotiated format altogether.  The 3-channel
scenario of the spec (3-channel frames processed, 4-channel dropped, state
stays `Running`) does hold. -/
theorem claim_C1_loop_ignores_negotiated_format :
    negotiate false ⟨[1080, 1920, 4], true, true, fun _ _ _ => 0⟩ =
      some GLFormat.rgba ∧
    runningIteration GLFormat.rgba
      (some ⟨[1080, 1920, 4], true, true, fun _ _ _ => 0⟩) = .dropLogged ∧
    negotiate false ⟨[1080, 1920, 3], true, true, fun _ _ _ => 0⟩ =
      some GLFormat.rgb ∧
    runningIteration GLFormat.rgb
      (some ⟨[1080, 1920, 3], true, true, fun _ _ _ => 0⟩) =
      .processed ⟨[1080, 1920, 3], true, true, fun _ _ _ => 0⟩ ∧
    runningIteration GLFormat.rgb
      (some ⟨[1080, 1920, 4], true, true, fun _ _ _ => 0⟩) = .dropLogged ∧
    stateAfterIteration .dropLogged = .running ∧
    (∀ (fmt fmt' : GLFormat) (fr : Option NpArray),
      runningIteration fmt fr = runningIteration fmt' fr) := by
  refine ⟨rfl, rfl, rfl, rfl, rfl, rfl, fun fmt fmt' fr => ?_⟩
  cases fr <;> rfl

/-- C4.  `upload_frame` reports an error exactly when the frame's
width/height differ from the dimensions fixed at initialization or its
dtype/dimensionality/channel count do not match the negotiated pixel
format; the contiguity flag never influences acceptance (a non-contiguous
frame is silently copied), and the pixel data the upload consumes is the
caller's data unchanged. -/
theorem claim_C4_upload_frame_validation (rw rh : ℕ) (fmt : GLFormat)
    (f : NpArray) :
    (exceptOk (uploadFrame rw rh fmt (some f)) = true ↔
      uploadAccepts rw rh fmt f) ∧
    exceptOk (uploadFrame rw rh fmt (some { f with contiguous := false })) =
      exceptOk (uploadFrame rw rh fmt (some { f with contiguous := true })) ∧
    (∀ u, uploadFrame rw rh fmt (some f) = .ok u → u.data = f.data) := by
  have hiff : ∀ g : NpArray, exceptOk (uploadFrame rw rh fmt (some g)) = true ↔
      uploadAccepts rw rh fmt g := by
    intro g
    simp only [uploadFrame]
    unfold uploadAccepts
    split_ifs with h1 h2 h3 h4 h5
    · simp only [exceptOk]
      constructor
      · intro h
        exact absurd h (by simp)
      · intro h
        push_neg at h1
        tauto
    · simp only [exceptOk]
      constructor
      · intro h
        exact absurd h (by simp)
      · intro h
        push_neg at h2
        tauto
    · simp only [exceptOk]
      constructor
      · intro h
        exact absurd h (by simp)
      · intro h
        obtain ⟨hc3, hnr, hnb⟩ := h3
        rcases h.2.2.2.2 with ⟨_, hf3⟩ | ⟨hc4, _⟩
        · rcases hf3 with hh | hh <;> simp_all
        · omega
    · simp only [exceptOk]
      constructor
      · intro h
        exact absurd h (by simp)
      · intro h
        obtain ⟨hc4, hnr, hnb⟩ := h4
        rcases h.2.2.2.2 with ⟨hc3, _⟩ | ⟨_, hf4⟩
        · omega
        · rcases hf4 with hh | hh <;> simp_all
    all_goals
      simp only [exceptOk, true_iff]
      push_neg at h1 h2
      obtain ⟨hdt, hlen, hch⟩ := h1
      refine ⟨hdt, hlen, h2.1, h2.2, ?_⟩
      by_cases hc3 : g.shape.getD 2 0 = 3
      · left
        refine ⟨hc3, ?_⟩
        by_contra hno
        push_neg at hno
        exact h3 ⟨hc3, hno.1, hno.2⟩
      · right
        refine ⟨hch hc3, ?_⟩
        by_contra hno
        push_neg at hno
        exact h4 ⟨hch hc3, hno.1, hno.2⟩
  refine ⟨hiff f, ?_, ?_⟩
  · have hF := hiff { f with contiguous := false }
    have hT := hiff { f with contiguous := true }
    have hsame : uploadAccepts rw rh fmt { f with contiguous := false } ↔
        uploadAccepts rw rh fmt { f with contiguous := true } := Iff.rfl
    cases hA : exceptOk (uploadFrame rw rh fmt
        (some { f with contiguous := false })) <;>
      cases hB : exceptOk (uploadFrame rw rh fmt
        (some { f with contiguous := true })) <;> simp_all
  · intro u hu
    simp only [uploadFrame] at hu
    split_ifs at hu
    all_goals injection hu with hu
    all_goals subst hu
    all_goals simp [mkContiguous]

/-- Witness for C4 at a concrete input: a valid non-contiguous 2-by-1
3-channel uint8 frame is accepted by a renderer initialized at 2-by-1 with
`GL_RGB`, and the contiguous copy it uploads carries the caller's pixel
data. -/
theorem claim_C4_upload_frame_validation_witness :
    exceptOk (uploadFrame 2 1 GLFormat.rgb
      (some ⟨[1, 2, 3], true, false, fun _ _ _ => 5⟩)) = true ∧
    (mkContiguous ⟨[1, 2, 3], true, false, fun _ _ _ => 5⟩).data =
      (⟨[1, 2, 3], true, false, fun _ _ _ => 5⟩ : NpArray).data :=
  ⟨(claim_C4_upload_frame_validation 2 1 GLFormat.rgb
      ⟨[1, 2, 3], true, false, fun _ _ _ => 5⟩).1.mpr (by decide),
    (claim_C4_upload_frame_validation 2 1 GLFormat.rgb
      ⟨[1, 2, 3], true, false, fun _ _ _ => 5⟩).2.2
      (mkContiguous ⟨[1, 2, 3], true, false, fun _ _ _ => 5⟩) rfl⟩

/-- C5 (counterexample).  At a concrete failed-exclusion state (surface
handle 42, `succeeded = false`) the spec's `capture_guard_handle()` demands
the non-null surface handle, but the handle actually supplied to the
Capture Source by the loop's capture call is `None`: the code exposes no
such method and `capture_desktop_excluding_hwnd` accepts no handle. -/
theorem claim_C5_counterexample :
    capture_guard_handle_spec { attempted := true, succeeded := false } 42 ≠
      guardHandlePassedToCapture (loopCaptureCall true) := by
  decide

/-- C5 (amended).  The code records only the boolean result of the single
startup exclusion attempt; no `capture_guard_handle` method exists, and the
Capture Source is never given a surface handle to skip — every capture
call the loop makes carries no skip handle, which coincides with the
spec's method only in the exclusion-succeeded case. -/
theorem claim_C5_amended_no_guard_handle (hwnd : ℕ) (osOk rgb : Bool) :
    guardHandlePassedToCapture (loopCaptureCall rgb) = none ∧
    capture_guard_handle_spec { attempted := true, succeeded := true } hwnd =
      guardHandlePassedToCapture (loopCaptureCall rgb) ∧
    capture_guard_handle_spec { attempted := true, succeeded := false } hwnd =
      some hwnd ∧
    (exclusionStatusAfterStartup hwnd osOk).succeeded =
      attemptExcludeFromCapture hwnd osOk :=
  ⟨rfl, rfl, rfl, rfl⟩

theorem filter_twice (p : ℕ → Bool) (l : List ℕ) :
    (l.filter p).filter p = l.filter p := by
  rw [List.filter_filter]
  exact List.filter_congr fun x _ => Bool.and_self _

/-- C6 (counterexample).  A second `cleanup()` call is not a no-op: at a
concrete engine (all eight GL names live) the state after two cleanups
differs from the state after one, because the two `glDeleteProgram` calls
re-issued with the stale program names each record `GL_INVALID_VALUE`. -/
theorem claim_C6_counterexample :
    cleanup ⟨1, 2, 3, 4, 5, 6, 7, 8⟩
        (cleanup ⟨1, 2, 3, 4, 5, 6, 7, 8⟩ ⟨[1, 2], [3, 4, 5], [6, 7], [8], []⟩) ≠
      cleanup ⟨1, 2, 3, 4, 5, 6, 7, 8⟩ ⟨[1, 2], [3, 4, 5], [6, 7], [8], []⟩ := by
  decide

/-- C6 (amended).  One `cleanup()` call releases every engine-owned GL name,
and the loop's `finally` block runs it exactly once whether or not the loop
body raised; but `cleanup` is not idempotent: a second call releases
nothing further (the live name sets are unchanged) while the two
`glDeleteProgram` calls on the now-stale program names each record a
`GL_INVALID_VALUE` error. -/
theorem claim_C6_amended_release_once (e : EngineIds) (s : GLState)
    (hH0 : e.progH ≠ 0) (hV0 : e.progV ≠ 0)
    (hHs : e.progH ∈ s.programs) (hVs : e.progV ∈ s.programs)
    (hHV : e.progH ≠ e.progV) :
    (e.progH ∉ (cleanup e s).programs ∧ e.progV ∉ (cleanup e s).programs ∧
      e.texIn ∉ (cleanup e s).textures ∧ e.texTemp ∉ (cleanup e s).textures ∧
      e.texOut ∉ (cleanup e s).textures ∧ e.fboTemp ∉ (cleanup e s).fbos ∧
      e.fboOut ∉ (cleanup e s).fbos ∧ e.vao ∉ (cleanup e s).vaos) ∧
    ((cleanup e (cleanup e s)).programs = (cleanup e s).programs ∧
      (cleanup e (cleanup e s)).textures = (cleanup e s).textures ∧
      (cleanup e (cleanup e s)).fbos = (cleanup e s).fbos ∧
      (cleanup e (cleanup e s)).vaos = (cleanup e s).vaos) ∧
    (cleanup e (cleanup e s)).errors =
      (cleanup e s).errors ++ [.invalidValue, .invalidValue] ∧
    (∀ body : Except String Unit,
      shutdownFromLoop body e s = (body, cleanup e s)) := by
  have h1 : glDeleteProgram s e.progH =
      { s with programs := s.programs.filter (fun m => m ≠ e.progH) } := by
    unfold glDeleteProgram
    rw [if_neg hH0, if_pos hHs]
  have hmemV : e.progV ∈ s.programs.filter (fun m => m ≠ e.progH) :=
    List.mem_filter.mpr ⟨hVs, by simpa using Ne.symm hHV⟩
  have h2 : glDeleteProgram
      { s with programs := s.programs.filter (fun m => m ≠ e.progH) } e.progV =
      { s with programs := ((s.programs.filter (fun m => m ≠ e.progH)).filter (fun m => m ≠ e.progV)) } := by
    unfold glDeleteProgram
    rw [if_neg hV0, if_pos hmemV]
  have hs1 : cleanup e s =
      { programs := ((s.programs.filter (fun m => m ≠ e.progH)).filter (fun m => m ≠ e.progV))
        textures := (s.textures.filter (fun m => m ∉ [e.texIn, e.texTemp, e.texOut]))
        fbos := (s.fbos.filter (fun m => m ∉ [e.fboTemp, e.fboOut]))
        vaos := (s.vaos.filter (fun m => m ∉ [e.vao]))
        errors := s.errors } := by
    unfold cleanup
    rw [h1, h2]
    rfl
  have hHn : e.progH ∉ (cleanup e s).programs := by
    rw [hs1]
    intro hmem
    have := (List.mem_filter.mp (List.mem_filter.mp hmem).1).2
    simp at this
  have hVn : e.progV ∉ (cleanup e s).programs := by
    rw [hs1]
    intro hmem
    have := (List.mem_filter.mp hmem).2
    simp at this
  have h3 : glDeleteProgram (cleanup e s) e.progH =
      { cleanup e s with errors := (cleanup e s).errors ++ [.invalidValue] } := by
    unfold glDeleteProgram
    rw [if_neg hH0, if_neg hHn]
  have h4 : glDeleteProgram
      { cleanup e s with errors := (cleanup e s).errors ++ [.invalidValue] }
        e.progV =
      { cleanup e s with errors := (((cleanup e s).errors ++ [.invalidValue]) ++ [.invalidValue]) } := by
    unfold glDeleteProgram
    rw [if_neg hV0, if_neg hVn]
  have h5 : cleanup e (cleanup e s) =
      { cleanup e s with errors := ((cleanup e s).errors ++ [.invalidValue, .invalidValue]) } := by
    show glDeleteVertexArrays
        (glDeleteFramebuffers
          (glDeleteTextures
            (glDeleteProgram (glDeleteProgram (cleanup e s) e.progH) e.progV)
            [e.texIn, e.texTemp, e.texOut])
          [e.fboTemp, e.fboOut])
        [e.vao] = _
    rw [h3, h4, hs1]
    unfold glDeleteTextures glDeleteFramebuffers glDeleteVertexArrays
    simp [filter_twice]
  refine ⟨⟨hHn, hVn, ?_, ?_, ?_, ?_, ?_, ?_⟩,
    ⟨by rw [h5], by rw [h5], by rw [h5], by rw [h5]⟩, by rw [h5], fun _ => rfl⟩
  all_goals
    rw [hs1]
    intro hmem
    have := (List.mem_filter.mp hmem).2
    simp at this

/-- Witness for C6 (amended) at the concrete engine of the counterexample:
all hypotheses hold and the second cleanup appends exactly the two
`GL_INVALID_VALUE` errors. -/
theorem claim_C6_amended_release_once_witness :
    (1 : ℕ) ≠ 0 ∧
    (cleanup ⟨1, 2, 3, 4, 5, 6, 7, 8⟩
        (cleanup ⟨1, 2, 3, 4, 5, 6, 7, 8⟩
          ⟨[1, 2], [3, 4, 5], [6, 7], [8], []⟩)).errors =
      (cleanup ⟨1, 2, 3, 4, 5, 6, 7, 8⟩
        ⟨[1, 2], [3, 4, 5], [6, 7], [8], []⟩).errors ++
        [.invalidValue, .invalidValue] :=
  ⟨by decide,
    (claim_C6_amended_release_once ⟨1, 2, 3, 4, 5, 6, 7, 8⟩
      ⟨[1, 2], [3, 4, 5], [6, 7], [8], []⟩ (by decide) (by decide) (by decide)
      (by decide) (by decide)).2.2.1⟩

/-- C8.  Failure of the startup capture-exclusion request is never fatal:
the attempt is made exactly once at startup, before the loop; with no
window handle it returns `false`; the recorded status is the attempt's
result and the warning is reported exactly when it failed; and the startup
outcome (whether the render loop is reached) is independent of the
exclusion result — concretely, with `hwnd = 0` (attempt fails) and a valid
3-channel first frame, startup still reaches `Running`. -/
theorem claim_C8_exclusion_failure_nonfatal (hwnd : ℕ) (osOk isBgr : Bool)
    (ff : Option NpArray) :
    (startup hwnd osOk isBgr ff).exclusionAttempts = 1 ∧
    (startup hwnd osOk isBgr ff).excluded =
      attemptExcludeFromCapture hwnd osOk ∧
    (startup hwnd osOk isBgr ff).warned =
      !(startup hwnd osOk isBgr ff).excluded ∧
    (∀ osFail : Bool, attemptExcludeFromCapture 0 osFail = false) ∧
    (∀ (hwnd' : ℕ) (osOk' : Bool),
      (startup hwnd osOk isBgr ff).outcome =
        (startup hwnd' osOk' isBgr ff).outcome) ∧
    (startup 0 false false
        (some ⟨[2, 2, 3], true, true, fun _ _ _ => 0⟩)).excluded = false ∧
    (startup 0 false false
        (some ⟨[2, 2, 3], true, true, fun _ _ _ => 0⟩)).warned = true ∧
    (startup 0 false false
        (some ⟨[2, 2, 3], true, true, fun _ _ _ => 0⟩)).outcome =
      .running GLFormat.rgb :=
  ⟨rfl, rfl, rfl, fun _ => rfl, fun _ _ => rfl, rfl, rfl, rfl⟩

/-- C9 (counterexample).  From the settings file line `radius_rgb = a,b,c`,
`load_settings` produces a tuple of strings (a tuple whose parts fail
numeric parsing is kept as strings), and `unpack_settings` passes it
through — `radius_per_channel` reaches the caller as a non-numeric
3-tuple instead of being replaced by its default. -/
theorem claim_C9_counterexample :
    load_settings (some "radius_rgb = a,b,c".data) =
      [("radius_rgb".data,
        PyVal.tuple [.str "a".data, .str "b".data, .str "c".data])] ∧
    (unpack_settings
        (load_settings (some "radius_rgb = a,b,c".data))).radius_rgb =
      PyVal.tuple [.str "a".data, .str "b".data, .str "c".data] ∧
    isNumericTriple (unpack_settings
      (load_settings (some "radius_rgb = a,b,c".data))).radius_rgb = false :=
  ⟨rfl, rfl, rfl⟩

/-- C9 (amended).  `unpack_settings` validates only the shape of the four
tuple-typed settings: the unpacked `radius_rgb` and `sigma_rgb` are always
tuples of length 3 and `overlay_size`/`overlay_pos` tuples of length 2
(the default is substituted when the key is missing or the value is not a
tuple of that length), but element types are not checked — and every
non-tuple setting (such as `target_fps`) is passed through with no type
check at all.  The empty dict (missing settings file) yields the documented
defaults. -/
theorem claim_C9_amended_shape_only_validation :
    unpack_settings [] = defaultSettings ∧
    (∀ d, isTupleOfLen 3 (unpack_settings d).radius_rgb = true) ∧
    (∀ d, isTupleOfLen 3 (unpack_settings d).sigma_rgb = true) ∧
    (∀ d, isTupleOfLen 2 (unpack_settings d).overlay_size = true) ∧
    (∀ d, isTupleOfLen 2 (unpack_settings d).overlay_pos = true) ∧
    (∀ d v, dictGet d "target_fps".data = some v →
      (unpack_settings d).target_fps = v) ∧
    (∀ d v, dictGet d "radius_rgb".data = some v → isTupleOfLen 3 v = false →
      (unpack_settings d).radius_rgb = .tuple [.int 0, .int 2, .int 6]) := by
  refine ⟨rfl, ?_, ?_, ?_, ?_, ?_, ?_⟩
  · intro d
    show isTupleOfLen 3 (unpackField d "radius_rgb".data
      (.tuple [.int 0, .int 2, .int 6]) (some 3)) = true
    unfold unpackField
    rcases hd : dictGet d "radius_rgb".data with _ | v
    · rfl
    · show isTupleOfLen 3 (if isTupleOfLen 3 v = true then v else PyVal.tuple [.int 0, .int 2, .int 6]) = true
      by_cases hv : isTupleOfLen 3 v = true
      · rw [if_pos hv]
        exact hv
      · rw [if_neg hv]
        rfl
  · intro d
    show isTupleOfLen 3 (unpackField d "sigma_rgb".data
      (.tuple [.float (1 / 1000), .float 1, .float 3]) (some 3)) = true
    unfold unpackField
    rcases hd : dictGet d "sigma_rgb".data with _ | v
    · rfl
    · show isTupleOfLen 3 (if isTupleOfLen 3 v = true then v else PyVal.tuple [.float (1 / 1000), .float 1, .float 3]) = true
      by_cases hv : isTupleOfLen 3 v = true
      · rw [if_pos hv]
        exact hv
      · rw [if_neg hv]
        rfl
  · intro d
    show isTupleOfLen 2 (unpackField d "overlay_size".data
      (.tuple [.int 2560, .int 1440]) (some 2)) = true
    unfold unpackField
    rcases hd : dictGet d "overlay_size".data with _ | v
    · rfl
    · show isTupleOfLen 2 (if isTupleOfLen 2 v = true then v else PyVal.tuple [.int 2560, .int 1440]) = true
      by_cases hv : isTupleOfLen 2 v = true
      · rw [if_pos hv]
        exact hv
      · rw [if_neg hv]
        rfl
  · intro d
    show isTupleOfLen 2 (unpackField d "overlay_pos".data
      (.tuple [.int 0, .int 0]) (some 2)) = true
    unfold unpackField
    rcases hd : dictGet d "overlay_pos".data with _ | v
    · rfl
    · show isTupleOfLen 2 (if isTupleOfLen 2 v = true then v else PyVal.tuple [.int 0, .int 0]) = true
      by_cases hv : isTupleOfLen 2 v = true
      · rw [if_pos hv]
        exact hv
      · rw [if_neg hv]
        rfl
  · intro d v h
    show unpackField d "target_fps".data (.int 60) none = v
    unfold unpackField
    rw [h]
  · intro d v h hv
    show unpackField d "radius_rgb".data
      (.tuple [.int 0, .int 2, .int 6]) (some 3) = .tuple [.int 0, .int 2, .int 6]
    unfold unpackField
    rw [h]
    simp [hv]

/-- Witness for C9 (amended) at a concrete dict: `target_fps` mapped to the
string `fast` is passed through unchecked, and `radius_rgb` mapped to the
scalar 5 is replaced by the default. -/
theorem claim_C9_amended_shape_only_validation_witness :
    (unpack_settings [("target_fps".data, PyVal.str "fast".data),
        ("radius_rgb".data, PyVal.int 5)]).target_fps = .str "fast".data ∧
    (unpack_settings [("target_fps".data, PyVal.str "fast".data),
        ("radius_rgb".data, PyVal.int 5)]).radius_rgb =
      .tuple [.int 0, .int 2, .int 6] :=
  ⟨claim_C9_amended_shape_only_validation.2.2.2.2.2.1
      [("target_fps".data, PyVal.str "fast".data),
        ("radius_rgb".data, PyVal.int 5)] (.str "fast".data) rfl,
    claim_C9_amended_shape_only_validation.2.2.2.2.2.2
      [("target_fps".data, PyVal.str "fast".data),
        ("radius_rgb".data, PyVal.int 5)] (.int 5) rfl rfl⟩

/-- C10.  `set_params` performs no validation of the documented parameter
invariants: for every pair of 3-tuples of numbers it succeeds, coercing
radii with `int` (truncation) and sigmas with `float` and forwarding them
to the shader uniforms unchanged; concretely the radius tuple `(-3, 2, 6)`
and sigma tuple `(0.0, 1.0, 3.0)` are accepted silently although they
violate the data-model invariant (radius non-negative, sigma positive). -/
theorem claim_C10_set_params_no_validation :
    (∀ r1 r2 r3 s1 s2 s3 : PyNum,
      set_params (r1, r2, r3) (s1, s2, s3) =
        { radius := (pyIntOfNum r1, pyIntOfNum r2, pyIntOfNum r3)
          sigma := (pyFloatOfNum s1, pyFloatOfNum s2, pyFloatOfNum s3) }) ∧
    set_params (.i (-3), .i 2, .i 6) (.f 0, .f 1, .f 3) =
      { radius := (-3, 2, 6), sigma := (0, 1, 3) } ∧
    ¬ blurUniformsValid (set_params (.i (-3), .i 2, .i 6) (.f 0, .f 1, .f 3)) :=
  ⟨fun _ _ _ _ _ _ => rfl, rfl, fun h => absurd h.1 (by decide)⟩

end ECF
